import Mathlib

/-!
Shallow embedding of `hackeeg/acquire_data.cpp` (HackEEG C++ acquisition
client).  The embedded functions mirror, line for line, the C++ source:

* `read_data_from_serial_port` (lines 26-34): one `read` on the serial fd;
  a return of `-1` falls through to `buffer.resize(len)`, i.e.
  `resize((size_t)-1)`, which exceeds `max_size()` and raises
  `length_error`; no byte buffer is returned on that path.  Modelled as
  `Except Unit (List Nat)` where bytes are opaque naturals.
* `read_response` (lines 38-65): accumulation of short reads into
  `raw_data` while `raw_data.size() < 38`, then incremental msgpack
  unpacking of the whole buffer.  The byte-accumulation loop is embedded
  as `accumulate_reads` / `read_response_buffer` over the list of chunks
  the successive reads return; the msgpack decode step is external
  library code and is left abstract (each acquisition cycle is given
  directly the list of decoded objects the unpacker yields).
* `acquire_data_cpp` (lines 67-115): zero-as-sentinel default resolution,
  `max_sample_time = duration * speed` (float to int cast truncates
  toward zero), the while loop bounded by both caps, and the returned
  triple whose third component is literally `end_time - start_time / 1000.0`
  with C++ precedence, i.e. `end_time - (start_time / 1000.0)`.
  The wall clock is embedded as a sequence `clock : Nat -> Rat` of the
  successive `system_clock::now()` readings (microseconds since epoch);
  `clock 0` initialises `end_time`, `clock 1` initialises `start_time`,
  and iteration `i` of the loop stores `clock (i + 2)` into `end_time`.
  The C++ `float`/`double` arithmetic is embedded over `Rat`; every value
  the claims use is exactly representable.
* `find_dropped_samples` / `get_sample_number` (lines 204-229): hash-set
  of extracted sequence numbers, reference set `{0, ..., n-1}`, count of
  the reference elements missing from the extracted set.
  `get_sample_number` has no body in the source, so the extraction is a
  parameter of the embedding.
-/

/-- Fixed frame size of the device protocol: the constant 38 of
`read_data_from_serial_port` and of the `raw_data.size() < 38` loop. -/
def frame_size : Nat := 38

/-- One call of `read_data_from_serial_port(fd)` (lines 26-34), given the
outcome of the underlying `read`: `len` is the value `read` returned and
`data` the bytes it deposited.  For `len == -1` the code falls through to
`buffer.resize(len)`, a `resize` to `(size_t)-1` that raises
`length_error` instead of returning a buffer; modelled as `error`. -/
def read_data_from_serial_port (len : Int) (data : List Nat) : Except Unit (List Nat) :=
  if len = -1 then .error ()
  else .ok (data.take len.toNat)

/-- The accumulation loop of `read_response` (lines 46-51): while the
buffer holds fewer than `frame_size` bytes, append the next read.
`chunks` is the list of byte chunks the successive reads return; `none`
models the blocking read when the source has nothing further. -/
def accumulate_reads (chunks : List (List Nat)) (raw_data : List Nat) : Option (List Nat) :=
  if raw_data.length < frame_size then
    match chunks with
    | [] => none
    | c :: rest => accumulate_reads rest (raw_data ++ c)
  else some raw_data

/-- The buffer `read_response` (lines 38-55) hands to the msgpack
unpacker: one unconditional first read, then the accumulation loop. -/
def read_response_buffer (chunks : List (List Nat)) : Option (List Nat) :=
  match chunks with
  | [] => none
  | c :: rest => accumulate_reads rest c

/-- Session state read through `this` in `acquire_data_cpp` (lines 68-78):
the configured defaults for the three zero-as-sentinel parameters. -/
structure Session where
  max_samples : Int
  duration : Rat
  speed : Int

/-- C++ float-to-int conversion used by
`int max_sample_time = duration * speed` (line 80): truncation toward
zero. -/
def truncToInt (q : Rat) : Int :=
  if 0 ≤ q then ⌊q⌋ else ⌈q⌉

/-- Default resolution of `max_samples` (lines 68-70). -/
def resolve_max_samples (sess : Session) (max_samples : Int) : Int :=
  if max_samples = 0 then sess.max_samples else max_samples

/-- Default resolution of `duration` (lines 72-74). -/
def resolve_duration (sess : Session) (duration : Rat) : Rat :=
  if duration = 0 then sess.duration else duration

/-- Default resolution of `speed` (lines 76-78). -/
def resolve_speed (sess : Session) (speed : Int) : Int :=
  if speed = 0 then sess.speed else speed

/-- The while loop of `acquire_data_cpp` (lines 93-108).  `cycles i` is
the result of the `i`-th call `read_response(fd)`: the list of decoded
objects the unpacker yielded for that cycle, or an error when the
underlying read failed (the C++ exception then propagates, which the
embedding models by returning `error` and discarding the locals).  Per
iteration, in source order: call `read_response`, store `clock (i + 2)`
into `end_time`, increment `sample_counter` once, and `push_back` the
whole cycle result as one element of `samples`. -/
def acquireLoop {α : Type} (cycles : Nat → Except Unit (List α)) (clock : Nat → Rat)
    (max_samples max_sample_time : Int) (i : Nat) (sample_counter : Int)
    (samples : List (List α)) (end_time : Rat) :
    Except Unit (List (List α) × Int × Rat) :=
  if h : sample_counter < max_samples ∧ sample_counter < max_sample_time then
    match cycles i with
    | .error e => .error e
    | .ok batch =>
        acquireLoop cycles clock max_samples max_sample_time (i + 1) (sample_counter + 1)
          (samples ++ [batch]) (clock (i + 2))
  else .ok (samples, sample_counter, end_time)
termination_by (min max_samples max_sample_time - sample_counter).toNat
decreasing_by
  obtain ⟨h1, h2⟩ := h
  omega

/-- `acquire_data_cpp` (lines 67-115): resolve the zero-as-sentinel
parameters against the session defaults, compute
`max_sample_time = duration * speed` (truncating cast), take the two
initial clock readings (`end_time` first, line 91, then `start_time`,
line 92), run the loop, and return
`(samples, sample_counter, end_time - start_time / 1000.0)` — with C++
precedence the division applies to `start_time` alone (line 114).
`display_output` only echoes samples to the console (line 105-107) and
has no effect on the result. -/
def acquire_data_cpp {α : Type} (sess : Session) (cycles : Nat → Except Unit (List α))
    (clock : Nat → Rat) (max_samples : Int) (duration : Rat) (speed : Int)
    (display_output : Bool) : Except Unit (List (List α) × Int × Rat) :=
  let ms := resolve_max_samples sess max_samples
  let d := resolve_duration sess duration
  let s := resolve_speed sess speed
  let max_sample_time : Int := truncToInt (d * (s : Rat))
  let end_time := clock 0
  let start_time := clock 1
  match acquireLoop cycles clock ms max_sample_time 0 0 [] end_time with
  | .error e => .error e
  | .ok (samples, sample_counter, end_time) =>
      .ok (samples, sample_counter, end_time - start_time / 1000)

/-- The `missing_samples` vector of `find_dropped_samples`
(lines 215-220): elements of the reference set `{0, ..., n-1}`
(lines 210-213) absent from the set of extracted sequence numbers
(lines 205-208).  `get_sample_number` has no body in the source, so the
extraction function is a parameter. -/
def missing_samples (get_sample_number : Int → Int) (samples : List Int)
    (number_of_samples : Int) : Finset Int :=
  ((Finset.range number_of_samples.toNat).image (fun i : Nat => (i : Int))).filter
    (fun k => k ∉ (samples.map get_sample_number).toFinset)

/-- `find_dropped_samples` (lines 204-223): the size of the
`missing_samples` vector. -/
def find_dropped_samples (get_sample_number : Int → Int) (samples : List Int)
    (number_of_samples : Int) : Nat :=
  (missing_samples get_sample_number samples number_of_samples).card

/-- The size returned by `find_dropped_samples` is the cardinality of the
set difference between the reference set and the extracted set: the
`missing_samples` filter computes exactly `reference \ present`. -/
theorem find_dropped_samples_eq_sdiff (g : Int → Int) (samples : List Int)
    (n : Int) :
    find_dropped_samples g samples n =
      (((Finset.range n.toNat).image (fun i : Nat => (i : Int))) \
        (samples.map g).toFinset).card := by
  rw [find_dropped_samples, missing_samples, Finset.sdiff_eq_filter]

/-- C3: for every sample list and every expected count `n ≥ 0`,
`find_dropped_samples` returns the cardinality of
`{0, ..., n-1} \ {extracted sequence numbers}`; in particular, for
`n = 5` and samples whose sequence numbers are `{0, 1, 3}`, it returns
`2` with missing set `{2, 4}`. -/
theorem C3_find_dropped_is_set_difference :
    (∀ (g : Int → Int) (samples : List Int) (n : Int), 0 ≤ n →
        find_dropped_samples g samples n =
          (((Finset.range n.toNat).image (fun i : Nat => (i : Int))) \
            (samples.map g).toFinset).card)
    ∧ find_dropped_samples (fun sample => sample - 10) [10, 11, 13] 5 = 2
    ∧ missing_samples (fun sample => sample - 10) [10, 11, 13] 5 = {2, 4} := by
  refine ⟨fun g samples n _ => find_dropped_samples_eq_sdiff g samples n, by decide, by decide⟩

/-- Witness for C3 at a concrete input. -/
theorem C3_find_dropped_is_set_difference_witness :
    find_dropped_samples id [2] 3 =
      (((Finset.range (3 : Int).toNat).image (fun i : Nat => (i : Int))) \
        (([2] : List Int).map id).toFinset).card :=
  C3_find_dropped_is_set_difference.1 id [2] 3 (by decide)

/-- C8: `find_dropped_samples` is invariant under permutation of the
sample list, a duplicated sequence number is counted once as present, and
samples covering exactly `{0, ..., n-1}` in any order give result `0`. -/
theorem C8_find_dropped_perm_and_dup_invariant :
    (∀ (g : Int → Int) (s s' : List Int) (n : Int), s.Perm s' →
        find_dropped_samples g s n = find_dropped_samples g s' n)
    ∧ (∀ (g : Int → Int) (x : Int) (s : List Int) (n : Int),
        find_dropped_samples g (x :: x :: s) n = find_dropped_samples g (x :: s) n)
    ∧ (∀ (g : Int → Int) (s : List Int) (n : Int),
        (s.map g).toFinset = (Finset.range n.toNat).image (fun i : Nat => (i : Int)) →
        find_dropped_samples g s n = 0) := by
  refine ⟨fun g s s' n h => ?_, fun g x s n => ?_, fun g s n h => ?_⟩
  · rw [find_dropped_samples_eq_sdiff, find_dropped_samples_eq_sdiff,
      List.toFinset_eq_of_perm _ _ (h.map g)]
  · rw [find_dropped_samples_eq_sdiff, find_dropped_samples_eq_sdiff]
    simp only [List.map_cons, List.toFinset_cons, Finset.insert_idem]
  · rw [find_dropped_samples_eq_sdiff, h, Finset.sdiff_self, Finset.card_empty]

/-- Witness for C8 at concrete inputs. -/
theorem C8_find_dropped_perm_and_dup_invariant_witness :
    (find_dropped_samples id [1, 0] 2 = find_dropped_samples id [0, 1] 2)
    ∧ (find_dropped_samples id [5, 5, 0] 2 = find_dropped_samples id [5, 0] 2)
    ∧ find_dropped_samples id [1, 0] 2 = 0 :=
  ⟨C8_find_dropped_perm_and_dup_invariant.1 id [1, 0] [0, 1] 2 (by decide),
   C8_find_dropped_perm_and_dup_invariant.2.1 id 5 [0] 2,
   C8_find_dropped_perm_and_dup_invariant.2.2 id [1, 0] 2 (by decide)⟩

/-- C10: for every sample list and every `number_of_samples ≤ 0`, the
reference set is empty (the index loop never executes), so
`find_dropped_samples` returns `0` whatever the samples are. -/
theorem C10_nonpositive_expected_count_gives_zero (g : Int → Int)
    (samples : List Int) (n : Int) (h : n ≤ 0) :
    find_dropped_samples g samples n = 0 := by
  rw [find_dropped_samples_eq_sdiff, Int.toNat_of_nonpos h]
  simp

/-- Witness for C10 at a concrete input. -/
theorem C10_nonpositive_expected_count_gives_zero_witness :
    find_dropped_samples id [3, 7] (-2) = 0 :=
  C10_nonpositive_expected_count_gives_zero id [3, 7] (-2) (by decide)

/-- Functional characterisation of the acquisition while loop on an
error-free cycle stream: starting from counter `c` with
`(min max_samples max_sample_time - c).toNat = n`, the loop runs exactly
`n` iterations, appends the `n` cycle results in order, adds `n` to the
counter, and leaves `end_time` at the last reading taken (or untouched
when no iteration ran). -/
theorem acquireLoop_ok_eq {α : Type} (cycles : Nat → Except Unit (List α)) (clock : Nat → Rat)
    (ms mst : Int) (f : Nat → List α) (hcyc : ∀ j, cycles j = .ok (f j)) :
    ∀ (n : Nat) (i : Nat) (c : Int) (samples : List (List α)) (e : Rat),
      (min ms mst - c).toNat = n →
      acquireLoop cycles clock ms mst i c samples e =
        .ok (samples ++ (List.range n).map (fun j => f (i + j)), c + (n : Int),
             if n = 0 then e else clock (i + n + 1)) := by
  intro n
  induction n with
  | zero =>
    intro i c samples e hn
    have hnot : ¬(c < ms ∧ c < mst) := by omega
    rw [acquireLoop, dif_neg hnot]
    simp
  | succ n ih =>
    intro i c samples e hn
    have hcond : c < ms ∧ c < mst := by omega
    rw [acquireLoop, dif_pos hcond]
    simp only [hcyc i]
    rw [ih (i + 1) (c + 1) (samples ++ [f i]) (clock (i + 2)) (by omega)]
    refine congrArg Except.ok ?_
    refine Prod.ext ?_ (Prod.ext ?_ ?_)
    · show samples ++ [f i] ++ (List.range n).map (fun j => f (i + 1 + j)) =
        samples ++ (List.range (n + 1)).map (fun j => f (i + j))
      rw [List.range_succ_eq_map, List.append_assoc]
      simp only [List.map_cons, List.map_map, Nat.add_zero]
      refine congrArg (samples ++ ·) ?_
      refine congrArg (f i :: ·) ?_
      refine List.map_congr_left ?_
      intro a _
      simp only [Function.comp]
      congr 1
      omega
    · show c + 1 + (n : Int) = c + ((n : Nat) + 1 : Nat)
      push_cast
      ring
    · show (if n = 0 then clock (i + 2) else clock (i + 1 + n + 1)) =
        (if n + 1 = 0 then e else clock (i + (n + 1) + 1))
      rcases Nat.eq_zero_or_pos n with h0 | h0
      · subst h0; norm_num
      · rw [if_neg (by omega), if_neg (by omega)]
        congr 1
        omega

/-- Counter invariant of the while loop, also in the presence of read
errors: whenever the loop returns normally, the final counter is the
starting counter or the effective cap `min max_samples max_sample_time`,
whichever is larger. -/
theorem acquireLoop_counter_aux {α : Type} (cycles : Nat → Except Unit (List α))
    (clock : Nat → Rat) (ms mst : Int) :
    ∀ (n : Nat) (i : Nat) (c : Int) (samples : List (List α)) (e : Rat)
      (s' : List (List α)) (c' : Int) (e' : Rat),
      (min ms mst - c).toNat = n →
      acquireLoop cycles clock ms mst i c samples e = .ok (s', c', e') →
      c' = max c (min ms mst) := by
  intro n
  induction n with
  | zero =>
    intro i c samples e s' c' e' hn h
    have hnot : ¬(c < ms ∧ c < mst) := by omega
    rw [acquireLoop, dif_neg hnot] at h
    simp only [Except.ok.injEq, Prod.mk.injEq] at h
    obtain ⟨-, h2, -⟩ := h
    omega
  | succ n ih =>
    intro i c samples e s' c' e' hn h
    have hcond : c < ms ∧ c < mst := by omega
    rw [acquireLoop, dif_pos hcond] at h
    split at h
    · exact absurd h (by simp)
    · have h2 := ih _ _ _ _ _ _ _ (by omega) h
      omega

/-- Wrapper of `acquireLoop_counter_aux` without the explicit measure. -/
theorem acquireLoop_counter_of_ok {α : Type} (cycles : Nat → Except Unit (List α))
    (clock : Nat → Rat) (ms mst : Int) (i : Nat) (c : Int) (samples : List (List α))
    (e : Rat) (s' : List (List α)) (c' : Int) (e' : Rat)
    (h : acquireLoop cycles clock ms mst i c samples e = .ok (s', c', e')) :
    c' = max c (min ms mst) :=
  acquireLoop_counter_aux cycles clock ms mst (min ms mst - c).toNat i c samples e s' c' e'
    rfl h

/-- Unfolding equation of `acquire_data_cpp` exposing the loop call. -/
theorem acquire_data_cpp_eq {α : Type} (sess : Session) (cycles : Nat → Except Unit (List α))
    (clock : Nat → Rat) (ms : Int) (d : Rat) (s : Int) (disp : Bool) :
    acquire_data_cpp sess cycles clock ms d s disp =
      match acquireLoop cycles clock (resolve_max_samples sess ms)
          (truncToInt (resolve_duration sess d * (resolve_speed sess s : Rat)))
          0 0 [] (clock 0) with
      | .error e => .error e
      | .ok (samples, sample_counter, end_time) =>
          .ok (samples, sample_counter, end_time - clock 1 / 1000) := rfl

/-- C2: whenever `acquire_data_cpp` returns normally and the resolved
caps are nonnegative, the final `sample_counter` is at most
`min max_samples max_sample_time` — and in fact the loop runs until the
effective cap is exactly reached, never overshooting it. -/
theorem C2_loop_exit_counter_at_effective_cap {α : Type} (sess : Session)
    (cycles : Nat → Except Unit (List α)) (clock : Nat → Rat) (ms : Int) (d : Rat)
    (s : Int) (disp : Bool) (samples : List (List α)) (counter : Int) (elapsed : Rat)
    (h : acquire_data_cpp sess cycles clock ms d s disp = .ok (samples, counter, elapsed))
    (h1 : 0 ≤ resolve_max_samples sess ms)
    (h2 : 0 ≤ truncToInt (resolve_duration sess d * (resolve_speed sess s : Rat))) :
    counter ≤ min (resolve_max_samples sess ms)
        (truncToInt (resolve_duration sess d * (resolve_speed sess s : Rat)))
    ∧ counter = min (resolve_max_samples sess ms)
        (truncToInt (resolve_duration sess d * (resolve_speed sess s : Rat))) := by
  rw [acquire_data_cpp_eq] at h
  split at h
  · exact absurd h (by simp)
  · rename_i s0 c0 e0 heq
    have hc := acquireLoop_counter_of_ok _ _ _ _ _ _ _ _ _ _ _ heq
    simp only [Except.ok.injEq, Prod.mk.injEq] at h
    obtain ⟨-, hcc, -⟩ := h
    constructor <;> omega

/-- Witness for C2 at a concrete completed acquisition. -/
theorem C2_loop_exit_counter_at_effective_cap_witness :
    (1 : Int) ≤ min (resolve_max_samples ⟨1, 1, 1⟩ 1)
        (truncToInt (resolve_duration ⟨1, 1, 1⟩ 1 * (resolve_speed ⟨1, 1, 1⟩ 1 : Rat)))
    ∧ (1 : Int) = min (resolve_max_samples ⟨1, 1, 1⟩ 1)
        (truncToInt (resolve_duration ⟨1, 1, 1⟩ 1 * (resolve_speed ⟨1, 1, 1⟩ 1 : Rat))) :=
  C2_loop_exit_counter_at_effective_cap ⟨1, 1, 1⟩ (fun _ => Except.ok [(42 : Nat)])
    (fun _ => 0) 1 1 1 false [[42]] 1 0
    (by
      have hms : resolve_max_samples ⟨1, 1, 1⟩ 1 = 1 := by norm_num [resolve_max_samples]
      have hmst : truncToInt (resolve_duration ⟨1, 1, 1⟩ 1 * (resolve_speed ⟨1, 1, 1⟩ 1 : Rat))
          = 1 := by norm_num [resolve_duration, resolve_speed, truncToInt]
      have hloop : acquireLoop (fun _ => Except.ok [(42 : Nat)]) (fun _ => (0 : Rat)) 1 1 0 0 [] 0
          = .ok ([[42]], 1, 0) := by
        rw [acquireLoop]; norm_num; rw [acquireLoop]; norm_num
      simp only [acquire_data_cpp_eq, hms, hmst, hloop]
      norm_num)
    (by norm_num [resolve_max_samples])
    (by norm_num [resolve_duration, resolve_speed, truncToInt])

/-- C1: at an acquisition whose final `end_time` reading and whose
`start_time` reading are both 1000 microseconds, the code returns
elapsed `999` — the value `end_time - start_time / 1000.0` in which only
the `start_time` operand has been unit-converted — while any single,
consistently-scaled subtraction of the two equal timestamps is `0`. -/
theorem C1_elapsed_mixes_units_at_equal_timestamps :
    acquire_data_cpp ⟨1, 1, 1⟩ (fun _ => Except.ok [(0 : Nat)]) (fun _ => (1000 : Rat)) 1 1 1 false
      = .ok ([[0]], 1, 999)
    ∧ ((1000 : Rat) - 1000) = 0
    ∧ (999 : Rat) ≠ 0 := by
  refine ⟨?_, by norm_num, by norm_num⟩
  have hms : resolve_max_samples ⟨1, 1, 1⟩ 1 = 1 := by norm_num [resolve_max_samples]
  have hmst : truncToInt (resolve_duration ⟨1, 1, 1⟩ 1 * (resolve_speed ⟨1, 1, 1⟩ 1 : Rat)) = 1 := by
    norm_num [resolve_duration, resolve_speed, truncToInt]
  have hloop : acquireLoop (fun _ => Except.ok [(0 : Nat)]) (fun _ => (1000 : Rat)) 1 1 0 0 [] 1000
      = .ok ([[0]], 1, 1000) := by
    rw [acquireLoop]; norm_num; rw [acquireLoop]; norm_num
  simp only [acquire_data_cpp_eq, hms, hmst, hloop]
  norm_num

/-- C5: a read cycle whose buffer decodes to the two objects `7` and `8`
increases `sample_counter` by one, not by two, and the batch is appended
to `samples` as a single element rather than as two decoded samples. -/
theorem C5_counter_incremented_per_cycle_not_per_sample :
    acquire_data_cpp ⟨1, 1, 1⟩ (fun _ => Except.ok [(7 : Nat), 8]) (fun _ => (0 : Rat)) 1 1 1 false
      = .ok ([[7, 8]], 1, 0)
    ∧ [(7 : Nat), 8].length = 2
    ∧ (1 : Int) ≠ 2 := by
  refine ⟨?_, by norm_num, by norm_num⟩
  have hms : resolve_max_samples ⟨1, 1, 1⟩ 1 = 1 := by norm_num [resolve_max_samples]
  have hmst : truncToInt (resolve_duration ⟨1, 1, 1⟩ 1 * (resolve_speed ⟨1, 1, 1⟩ 1 : Rat)) = 1 := by
    norm_num [resolve_duration, resolve_speed, truncToInt]
  have hloop : acquireLoop (fun _ => Except.ok [(7 : Nat), 8]) (fun _ => (0 : Rat)) 1 1 0 0 [] 0
      = .ok ([[7, 8]], 1, 0) := by
    rw [acquireLoop]; norm_num; rw [acquireLoop]; norm_num
  simp only [acquire_data_cpp_eq, hms, hmst, hloop]
  norm_num

/-- C6: with both caps resolved to `0` the loop body never executes and
the sample sequence is empty with `count = 0`, but the returned elapsed
value is `clock 0 - clock 1 / 1000` — at two equal pre-loop readings of
1000000 microseconds it is `999000`, not `0`. -/
theorem C6_zero_caps_return_is_not_zero_elapsed :
    acquire_data_cpp ⟨0, 0, 0⟩ (fun _ => Except.ok ([] : List Nat)) (fun _ => (1000000 : Rat))
        0 0 0 false
      = .ok ([], 0, 999000)
    ∧ (999000 : Rat) ≠ 0 := by
  refine ⟨?_, by norm_num⟩
  have hms : resolve_max_samples ⟨0, 0, 0⟩ 0 = 0 := by norm_num [resolve_max_samples]
  have hmst : truncToInt (resolve_duration ⟨0, 0, 0⟩ 0 * (resolve_speed ⟨0, 0, 0⟩ 0 : Rat)) = 0 := by
    norm_num [resolve_duration, resolve_speed, truncToInt]
  have hloop : acquireLoop (fun _ => Except.ok ([] : List Nat)) (fun _ => (1000000 : Rat))
      0 0 0 0 [] 1000000 = .ok ([], 0, 1000000) := by
    rw [acquireLoop]; norm_num
  simp only [acquire_data_cpp_eq, hms, hmst, hloop]
  norm_num

/-- C7: a `read` returning `-1` yields no byte buffer (the fall-through
`resize((size_t)-1)` raises instead of returning), and an acquisition
whose second read cycle fails that way stops — but returns only the
error, discarding the sample decoded before the failure instead of
returning it with `sample_counter = 1`. -/
theorem C7_io_failure_stops_but_discards_partial_samples :
    read_data_from_serial_port (-1) [1, 2, 3] = .error ()
    ∧ acquire_data_cpp ⟨1, 1, 1⟩
        (fun i => if i = 0 then Except.ok [(5 : Nat)] else Except.error ())
        (fun _ => (0 : Rat)) 2 2 1 false = .error () := by
  refine ⟨by norm_num [read_data_from_serial_port], ?_⟩
  have hms : resolve_max_samples ⟨1, 1, 1⟩ 2 = 2 := by norm_num [resolve_max_samples]
  have hmst : truncToInt (resolve_duration ⟨1, 1, 1⟩ 2 * (resolve_speed ⟨1, 1, 1⟩ 1 : Rat)) = 2 := by
    norm_num [resolve_duration, resolve_speed, truncToInt]
  have hloop : acquireLoop (fun i => if i = 0 then Except.ok [(5 : Nat)] else Except.error ())
      (fun _ => (0 : Rat)) 2 2 0 0 [] 0 = .error () := by
    rw [acquireLoop]; norm_num; rw [acquireLoop]; norm_num
  simp only [acquire_data_cpp_eq, hms, hmst, hloop]

/-- Resolving an already-resolved `max_samples` changes nothing. -/
theorem resolve_max_samples_resolve (sess : Session) (v : Int) :
    resolve_max_samples sess (resolve_max_samples sess v) = resolve_max_samples sess v := by
  by_cases h : v = 0 <;> simp [resolve_max_samples, h]

/-- Resolving an already-resolved `duration` changes nothing. -/
theorem resolve_duration_resolve (sess : Session) (v : Rat) :
    resolve_duration sess (resolve_duration sess v) = resolve_duration sess v := by
  by_cases h : v = 0 <;> simp [resolve_duration, h]

/-- Resolving an already-resolved `speed` changes nothing. -/
theorem resolve_speed_resolve (sess : Session) (v : Int) :
    resolve_speed sess (resolve_speed sess v) = resolve_speed sess v := by
  by_cases h : v = 0 <;> simp [resolve_speed, h]

/-- Resolution of `max_samples` reads only the `max_samples` default,
and not even that when the caller passed a nonzero value. -/
theorem resolve_max_samples_congr (m1 m2 : Int) (d1 d2 : Rat) (s1 s2 : Int) (v : Int)
    (h : v ≠ 0 ∨ m1 = m2) :
    resolve_max_samples ⟨m1, d1, s1⟩ v = resolve_max_samples ⟨m2, d2, s2⟩ v := by
  rcases h with h | h
  · simp [resolve_max_samples, h]
  · subst h
    rfl

/-- Resolution of `duration` reads only the `duration` default, and not
even that when the caller passed a nonzero value. -/
theorem resolve_duration_congr (m1 m2 : Int) (d1 d2 : Rat) (s1 s2 : Int) (v : Rat)
    (h : v ≠ 0 ∨ d1 = d2) :
    resolve_duration ⟨m1, d1, s1⟩ v = resolve_duration ⟨m2, d2, s2⟩ v := by
  rcases h with h | h
  · simp [resolve_duration, h]
  · subst h
    rfl

/-- Resolution of `speed` reads only the `speed` default, and not even
that when the caller passed a nonzero value. -/
theorem resolve_speed_congr (m1 m2 : Int) (d1 d2 : Rat) (s1 s2 : Int) (v : Int)
    (h : v ≠ 0 ∨ s1 = s2) :
    resolve_speed ⟨m1, d1, s1⟩ v = resolve_speed ⟨m2, d2, s2⟩ v := by
  rcases h with h | h
  · simp [resolve_speed, h]
  · subst h
    rfl

/-- C9: default resolution is per field.  First conjunct: every call of
`acquire_data_cpp`, mixed combinations included, behaves exactly as the
call in which each of the three parameters has been individually
pre-resolved — a zero field replaced by that field's session default, a
nonzero field kept.  Second conjunct: the result can depend on a
session default only in a field whose argument is zero; for every field
with a nonzero argument the session default of that field is irrelevant.
Remaining conjuncts: per field, resolution sends `0` to the session
default of that field and leaves every nonzero value unchanged, so a
literal zero can never take effect as a requested value. -/
theorem C9_zero_is_sentinel_for_defaults {α : Type}
    (cycles : Nat → Except Unit (List α)) (clock : Nat → Rat) (ms : Int) (d : Rat)
    (s : Int) (disp : Bool) :
    (∀ sess : Session,
      acquire_data_cpp sess cycles clock ms d s disp =
        acquire_data_cpp sess cycles clock (resolve_max_samples sess ms)
          (resolve_duration sess d) (resolve_speed sess s) disp)
    ∧ (∀ (m1 m2 : Int) (d1 d2 : Rat) (s1 s2 : Int),
        (ms ≠ 0 ∨ m1 = m2) → (d ≠ 0 ∨ d1 = d2) → (s ≠ 0 ∨ s1 = s2) →
        acquire_data_cpp ⟨m1, d1, s1⟩ cycles clock ms d s disp =
          acquire_data_cpp ⟨m2, d2, s2⟩ cycles clock ms d s disp)
    ∧ (∀ (sess : Session) (v : Int),
        resolve_max_samples sess 0 = sess.max_samples
        ∧ (v ≠ 0 → resolve_max_samples sess v = v))
    ∧ (∀ (sess : Session) (v : Rat),
        resolve_duration sess 0 = sess.duration
        ∧ (v ≠ 0 → resolve_duration sess v = v))
    ∧ (∀ (sess : Session) (v : Int),
        resolve_speed sess 0 = sess.speed
        ∧ (v ≠ 0 → resolve_speed sess v = v)) := by
  refine ⟨fun sess => ?_, fun m1 m2 d1 d2 s1 s2 h1 h2 h3 => ?_,
    fun sess v => ⟨by simp [resolve_max_samples],
      fun hv => by simp [resolve_max_samples, hv]⟩,
    fun sess v => ⟨by simp [resolve_duration],
      fun hv => by simp [resolve_duration, hv]⟩,
    fun sess v => ⟨by simp [resolve_speed],
      fun hv => by simp [resolve_speed, hv]⟩⟩
  · rw [acquire_data_cpp_eq, acquire_data_cpp_eq, resolve_max_samples_resolve,
      resolve_duration_resolve, resolve_speed_resolve]
  · rw [acquire_data_cpp_eq, acquire_data_cpp_eq,
      resolve_max_samples_congr m1 m2 d1 d2 s1 s2 ms h1,
      resolve_duration_congr m1 m2 d1 d2 s1 s2 d h2,
      resolve_speed_congr m1 m2 d1 d2 s1 s2 s h3]

/-- Witness for C9 at a concrete mixed call: `max_samples = 0` with
nonzero `duration = 2` and `speed = 5`. -/
theorem C9_zero_is_sentinel_for_defaults_witness :
    (acquire_data_cpp ⟨4, 1, 2⟩ (fun _ => Except.ok [(0 : Nat)]) (fun _ => 0) 0 2 5 false =
      acquire_data_cpp ⟨4, 1, 2⟩ (fun _ => Except.ok [(0 : Nat)]) (fun _ => 0)
        (resolve_max_samples ⟨4, 1, 2⟩ 0) (resolve_duration ⟨4, 1, 2⟩ 2)
        (resolve_speed ⟨4, 1, 2⟩ 5) false)
    ∧ (acquire_data_cpp ⟨4, 1, 2⟩ (fun _ => Except.ok [(0 : Nat)]) (fun _ => 0) 0 2 5 false =
        acquire_data_cpp ⟨4, 7, 8⟩ (fun _ => Except.ok [(0 : Nat)]) (fun _ => 0) 0 2 5 false)
    ∧ (resolve_max_samples ⟨4, 1, 2⟩ 0 = (4 : Int) ∧ resolve_max_samples ⟨4, 1, 2⟩ 9 = 9)
    ∧ (resolve_duration ⟨4, 1, 2⟩ 0 = (1 : Rat) ∧ resolve_duration ⟨4, 1, 2⟩ 2 = 2)
    ∧ (resolve_speed ⟨4, 1, 2⟩ 0 = (2 : Int) ∧ resolve_speed ⟨4, 1, 2⟩ 5 = 5) :=
  ⟨(C9_zero_is_sentinel_for_defaults (fun _ => Except.ok [(0 : Nat)])
      (fun _ => 0) 0 2 5 false).1 ⟨4, 1, 2⟩,
   (C9_zero_is_sentinel_for_defaults (fun _ => Except.ok [(0 : Nat)])
      (fun _ => 0) 0 2 5 false).2.1 4 4 1 7 2 8 (Or.inr rfl)
      (Or.inl (by norm_num)) (Or.inl (by norm_num)),
   ⟨((C9_zero_is_sentinel_for_defaults (fun _ => Except.ok [(0 : Nat)])
       (fun _ => 0) 0 2 5 false).2.2.1 ⟨4, 1, 2⟩ 9).1,
    ((C9_zero_is_sentinel_for_defaults (fun _ => Except.ok [(0 : Nat)])
       (fun _ => 0) 0 2 5 false).2.2.1 ⟨4, 1, 2⟩ 9).2 (by norm_num)⟩,
   ⟨((C9_zero_is_sentinel_for_defaults (fun _ => Except.ok [(0 : Nat)])
       (fun _ => 0) 0 2 5 false).2.2.2.1 ⟨4, 1, 2⟩ 2).1,
    ((C9_zero_is_sentinel_for_defaults (fun _ => Except.ok [(0 : Nat)])
       (fun _ => 0) 0 2 5 false).2.2.2.1 ⟨4, 1, 2⟩ 2).2 (by norm_num)⟩,
   ⟨((C9_zero_is_sentinel_for_defaults (fun _ => Except.ok [(0 : Nat)])
       (fun _ => 0) 0 2 5 false).2.2.2.2 ⟨4, 1, 2⟩ 5).1,
    ((C9_zero_is_sentinel_for_defaults (fun _ => Except.ok [(0 : Nat)])
       (fun _ => 0) 0 2 5 false).2.2.2.2 ⟨4, 1, 2⟩ 5).2 (by norm_num)⟩⟩

/-- Accumulation invariant of the `read_response` loop: when the bytes
still to arrive bring the buffer to exactly `frame_size`, the loop
consumes them all, discards nothing, and ends with the concatenation of
every fragment. -/
theorem accumulate_reads_of_sum_eq (chunks : List (List Nat)) :
    ∀ acc : List Nat, acc.length + (chunks.map List.length).sum = frame_size →
      accumulate_reads chunks acc = some (acc ++ chunks.flatten) := by
  induction chunks with
  | nil =>
    intro acc h
    simp only [List.map_nil, List.sum_nil, Nat.add_zero] at h
    rw [accumulate_reads, if_neg (by omega)]
    simp
  | cons c rest ih =>
    intro acc h
    simp only [List.map_cons, List.sum_cons] at h
    rw [accumulate_reads]
    by_cases hlt : acc.length < frame_size
    · rw [if_pos hlt, ih (acc ++ c) (by simp only [List.length_append]; omega)]
      simp [List.flatten_cons]
    · rw [if_neg hlt]
      have hc : c = [] := List.length_eq_zero.mp (by omega)
      have hj : rest.flatten = [] :=
        List.length_eq_zero.mp (by rw [List.length_flatten]; omega)
      simp [hc, hj, List.flatten_cons]

/-- C4 as stated is false: the loop exits as soon as the buffer length
is at least 38, so a 20-byte read followed by a 30-byte read hands the
decoder a 50-byte buffer, not one of length exactly 38. -/
theorem C4_overlong_buffer_counterexample :
    read_response_buffer [List.replicate 20 0, List.replicate 30 0]
      = some (List.replicate 20 0 ++ List.replicate 30 0)
    ∧ (List.replicate 20 (0 : Nat) ++ List.replicate 30 0).length ≠ frame_size := by
  constructor
  · rw [read_response_buffer, accumulate_reads, if_pos (by decide), accumulate_reads,
      if_neg (by decide)]
  · decide

/-- C4 amended: the accumulation loop appends every short read to the
buffer, never discarding a fragment, and continues until the buffer
holds at least 38 bytes; in particular, for any sequence of short reads
whose lengths sum to exactly 38, exactly one complete frame of length
exactly 38 is assembled — the concatenation of all the fragments. -/
theorem C4_chunked_reads_assemble_one_frame (chunks : List (List Nat))
    (h : (chunks.map List.length).sum = frame_size) :
    read_response_buffer chunks = some chunks.flatten
    ∧ chunks.flatten.length = frame_size := by
  constructor
  · cases chunks with
    | nil => simp [frame_size] at h
    | cons c rest =>
      rw [read_response_buffer,
        accumulate_reads_of_sum_eq rest c (by simp only [List.map_cons, List.sum_cons] at h; omega),
        List.flatten_cons]
  · rw [List.length_flatten]
    exact h

/-- Witness for C4 at a concrete pair of short reads summing to 38. -/
theorem C4_chunked_reads_assemble_one_frame_witness :
    (([List.replicate 20 (0 : Nat), List.replicate 18 0]).map List.length).sum = frame_size
    ∧ (read_response_buffer [List.replicate 20 (0 : Nat), List.replicate 18 0]
        = some ([List.replicate 20 (0 : Nat), List.replicate 18 0]).flatten
      ∧ ([List.replicate 20 (0 : Nat), List.replicate 18 0]).flatten.length = frame_size) :=
  ⟨by decide, C4_chunked_reads_assemble_one_frame _ (by decide)⟩
